import Mathlib

/-!
Verification of the Advion C-linkage export shim
(AnalyticalLabware/devices/Advion/src/advion_wrapper.cpp).

The file under verification is a flat table of extern "C" functions, each of
which forwards its arguments to one call on the vendor SDK (the AdvionCMS
classes AcquisitionManager, InstrumentController, Instrument and the
AdvionData class DataReader).  The vendor SDK is closed source; we therefore
embed it as an abstract record of operations over an abstract state type.
Every vendor operation threads a state value (covering the SDK's process-wide
globals, per-object state and the memory behind caller-supplied buffers) and
returns its result alongside the successor state.  Doubles and floats cross
the boundary untouched, so they are carried by abstract type parameters.

The only non-forwarding behaviour in the shim comes from C++ object creation
and destruction, which we embed explicitly:
  a plain new expression either yields a non-null pointer or throws
  (modelled as an Except value, the error meaning a propagating fault);
  a new(std::nothrow) expression yields the null pointer instead of
  throwing when allocation fails;
  a delete expression on a null pointer is a no-op.
-/

/-- Raw machine pointers crossing the C boundary, modelled as addresses. -/
abbrev Ptr := Nat

/-- The null pointer. -/
def nullPtr : Ptr := 0

/-- AdvionCMS ErrorCode values are a vendor-defined closed set of numeric
encodings; we carry them as integers. -/
abbrev ErrorCode := Int

/-- AdvionData ErrorCode values (a distinct vendor enumeration, also carried
as integers). -/
abbrev DataErrorCode := Int

/-- Modelled from the spec: the distinguished success value of the vendor
ErrorCode enumerations (the enumeration itself is vendor code not present in
this repository; the spec only distinguishes success from non-success). -/
def CMS_OK : ErrorCode := 0

/-- Modelled from the spec: the success value of the AdvionData ErrorCode
enumeration, distinguished from every failure value. -/
def ADVIONDATA_OK : DataErrorCode := 0

/-- Remaining vendor enumerations crossing the boundary as numeric encodings. -/
abbrev InstrumentSwitch := Int

/-- Vendor SourceType enumeration encoding. -/
abbrev SourceType := Int

/-- Vendor NumberReadback enumeration encoding. -/
abbrev NumberReadback := Int

/-- Vendor BinaryReadback enumeration encoding. -/
abbrev BinaryReadback := Int

/-- Vendor AcquisitionState enumeration encoding. -/
abbrev AcquisitionState := Int

/-- Vendor InstrumentState enumeration encoding. -/
abbrev InstrumentState := Int

/-- Vendor OperationMode enumeration encoding. -/
abbrev OperationMode := Int

/-- The fault raised by a failing plain new expression (std::bad_alloc),
which the shim never catches and therefore propagates to its caller. -/
inductive AllocFault : Type where
  | badAlloc
deriving DecidableEq

/-- Result of a C++ new expression WITHOUT std::nothrow: on allocation
failure the expression does not return a pointer at all, a fault propagates;
on success the (non-null) pointer is produced. -/
def newThrow : Option Ptr → Except AllocFault Ptr
  | none => Except.error AllocFault.badAlloc
  | some p => Except.ok p

/-- Result of a C++ new(std::nothrow) expression: allocation failure yields
the null pointer instead of a propagating fault. -/
def newNothrow : Option Ptr → Ptr
  | none => nullPtr
  | some p => p

/-- Abstract model of the vendor SDK surface used by advion_wrapper.cpp.
The state type sigma covers all vendor-side state (process-wide singletons,
heap objects, file handles, and the memory behind caller buffers); delta and
phi are the types of C doubles and floats, which the shim never inspects.
Each field is one vendor operation: it consumes a state (plus the forwarded
arguments, in source order) and produces the successor state together with
the operation's result.  Allocation outcomes are an Option pointer, none
meaning the allocation failed. -/
structure Vendor (σ δ φ : Type) where
  newUSBInstrument : σ → σ × Option Ptr
  newSimulatedInstrument : σ → String → σ × Option Ptr
  newDataReader : σ → String → Bool → Bool → σ × Option Ptr
  deleteDataReader : σ → Ptr → σ
  inst_setInstrumentSwitchOn : σ → Ptr → InstrumentSwitch → Bool → σ
  inst_ignoreRemainingPumpDownTime : σ → Ptr → σ
  inst_getPumpDownRemainingSeconds : σ → Ptr → σ × Int
  inst_getSourceType : σ → Ptr → σ × SourceType
  inst_getNumberReadback : σ → Ptr → NumberReadback → σ × δ
  inst_getBinaryReadback : σ → Ptr → BinaryReadback → σ × Bool
  am_start : σ → String → String → String → String → String → σ × ErrorCode
  am_startWithSwitching :
    σ → String → String → String → String → String → String → String → σ × ErrorCode
  am_stop : σ → σ × ErrorCode
  am_pause : σ → σ × ErrorCode
  am_resume : σ → σ × ErrorCode
  am_extend : σ → Int → σ × Int
  am_getState : σ → σ × AcquisitionState
  am_getCurrentFolder : σ → σ × String
  am_getAcquisitionBinsPerAMU : σ → σ × Int
  am_setAcquisitionBinsPerAMU : σ → Int → σ × ErrorCode
  am_getLastNumMasses : σ → σ × Int
  am_getMaxNumMasses : σ → σ × Int
  am_getLastSpectrumMasses : σ → Ptr → σ × ErrorCode
  am_getLastSpectrumIntensities : σ → Ptr → σ × ErrorCode
  ic_startController : σ → Ptr → σ × ErrorCode
  ic_stopController : σ → σ × ErrorCode
  ic_canVent : σ → σ × Bool
  ic_vent : σ → σ × ErrorCode
  ic_canPumpDown : σ → σ × Bool
  ic_pumpDown : σ → σ × ErrorCode
  ic_getState : σ → σ × InstrumentState
  ic_getOperationMode : σ → σ × OperationMode
  ic_canOperate : σ → σ × Bool
  ic_operate : σ → σ × ErrorCode
  ic_standby : σ → σ × ErrorCode
  ic_canStandby : σ → σ × Bool
  ic_getTuneParameters : σ → σ × String
  ic_setTuneParameters : σ → String → σ × ErrorCode
  ic_getIonSourceOptimization : σ → σ × String
  ic_setIonSourceOptimization : σ → String → σ × ErrorCode
  dr_getDeltaBackgroundSpectrum : σ → Ptr → Ptr → σ × DataErrorCode
  dr_getDeltaSpectrum : σ → Ptr → Int → Ptr → σ × DataErrorCode
  dr_getSpectrum : σ → Ptr → Int → Ptr → σ × DataErrorCode
  dr_getMasses : σ → Ptr → Ptr → σ × DataErrorCode
  dr_getNumMasses : σ → Ptr → σ × Int
  dr_getNumSpectra : σ → Ptr → σ × Int
  dr_getRetentionTimes : σ → Ptr → Ptr → σ × DataErrorCode
  dr_getTIC : σ → Ptr → Int → σ × φ

namespace AdvionWrapper

variable {σ δ φ : Type}

/-- usb_instrument: returns new USBInstrument() upcast to Instrument. -/
def usb_instrument (v : Vendor σ δ φ) (s : σ) : σ × Except AllocFault Ptr :=
  ((v.newUSBInstrument s).1, newThrow (v.newUSBInstrument s).2)

/-- simulated_instrument: returns new SimulatedInstrument(folder). -/
def simulated_instrument (v : Vendor σ δ φ) (s : σ) (folder : String) :
    σ × Except AllocFault Ptr :=
  ((v.newSimulatedInstrument s folder).1, newThrow (v.newSimulatedInstrument s folder).2)

/-- set_switch: forwards to Instrument::setInstrumentSwitchOn. -/
def set_switch (v : Vendor σ δ φ) (s : σ) (instrument : Ptr) (swtch : InstrumentSwitch)
    (value : Bool) : σ :=
  v.inst_setInstrumentSwitchOn s instrument swtch value

/-- ignore_remaining_pumpdown_time: forwards to Instrument::ignoreRemainingPumpDownTime. -/
def ignore_remaining_pumpdown_time (v : Vendor σ δ φ) (s : σ) (instrument : Ptr) : σ :=
  v.inst_ignoreRemainingPumpDownTime s instrument

/-- get_pumpdown_remaining_seconds: forwards to Instrument::getPumpDownRemainingSeconds. -/
def get_pumpdown_remaining_seconds (v : Vendor σ δ φ) (s : σ) (instrument : Ptr) : σ × Int :=
  v.inst_getPumpDownRemainingSeconds s instrument

/-- get_source: forwards to Instrument::getSourceType. -/
def get_source (v : Vendor σ δ φ) (s : σ) (instrument : Ptr) : σ × SourceType :=
  v.inst_getSourceType s instrument

/-- get_number_readback: forwards to Instrument::getNumberReadback. -/
def get_number_readback (v : Vendor σ δ φ) (s : σ) (instrument : Ptr)
    (id : NumberReadback) : σ × δ :=
  v.inst_getNumberReadback s instrument id

/-- get_binary_readback: forwards to Instrument::getBinaryReadback. -/
def get_binary_readback (v : Vendor σ δ φ) (s : σ) (instrument : Ptr)
    (id : BinaryReadback) : σ × Bool :=
  v.inst_getBinaryReadback s instrument id

/-- start: forwards to AcquisitionManager::start. -/
def start (v : Vendor σ δ φ) (s : σ)
    (methodXML ionSourceXML tuneXML name folder : String) : σ × ErrorCode :=
  v.am_start s methodXML ionSourceXML tuneXML name folder

/-- start_with_switching: forwards to AcquisitionManager::startWithSwitching. -/
def start_with_switching (v : Vendor σ δ φ) (s : σ)
    (methodXML ionSourceXML1 ionSourceXML2 tuneXML1 tuneXML2 name folder : String) :
    σ × ErrorCode :=
  v.am_startWithSwitching s methodXML ionSourceXML1 ionSourceXML2 tuneXML1 tuneXML2 name folder

/-- stop: forwards to AcquisitionManager::stop. -/
def stop (v : Vendor σ δ φ) (s : σ) : σ × ErrorCode :=
  v.am_stop s

/-- pause: forwards to AcquisitionManager::pause. -/
def pause (v : Vendor σ δ φ) (s : σ) : σ × ErrorCode :=
  v.am_pause s

/-- resume: forwards to AcquisitionManager::resume. -/
def resume (v : Vendor σ δ φ) (s : σ) : σ × ErrorCode :=
  v.am_resume s

/-- extend: forwards to AcquisitionManager::extend. -/
def extend (v : Vendor σ δ φ) (s : σ) (seconds : Int) : σ × Int :=
  v.am_extend s seconds

/-- get_state: forwards to AcquisitionManager::getState. -/
def get_state (v : Vendor σ δ φ) (s : σ) : σ × AcquisitionState :=
  v.am_getState s

/-- get_current_folder: forwards to AcquisitionManager::getCurrentFolder. -/
def get_current_folder (v : Vendor σ δ φ) (s : σ) : σ × String :=
  v.am_getCurrentFolder s

/-- get_acquisition_bins_per_amu: forwards to AcquisitionManager::getAcquisitionBinsPerAMU. -/
def get_acquisition_bins_per_amu (v : Vendor σ δ φ) (s : σ) : σ × Int :=
  v.am_getAcquisitionBinsPerAMU s

/-- set_acquisition_bins_per_amu: forwards to AcquisitionManager::setAcquisitionBinsPerAMU. -/
def set_acquisition_bins_per_amu (v : Vendor σ δ φ) (s : σ) (bins_per_amu : Int) :
    σ × ErrorCode :=
  v.am_setAcquisitionBinsPerAMU s bins_per_amu

/-- get_last_num_masses: forwards to AcquisitionManager::getLastNumMasses. -/
def get_last_num_masses (v : Vendor σ δ φ) (s : σ) : σ × Int :=
  v.am_getLastNumMasses s

/-- get_max_num_masses: forwards to AcquisitionManager::getMaxNumMasses. -/
def get_max_num_masses (v : Vendor σ δ φ) (s : σ) : σ × Int :=
  v.am_getMaxNumMasses s

/-- get_last_spectrum_masses: forwards to AcquisitionManager::getLastSpectrumMasses. -/
def get_last_spectrum_masses (v : Vendor σ δ φ) (s : σ) (buff : Ptr) : σ × ErrorCode :=
  v.am_getLastSpectrumMasses s buff

/-- get_last_spectrum_intensities: forwards to AcquisitionManager::getLastSpectrumIntensities. -/
def get_last_spectrum_intensities (v : Vendor σ δ φ) (s : σ) (buff : Ptr) : σ × ErrorCode :=
  v.am_getLastSpectrumIntensities s buff

/-- start_controller: forwards to InstrumentController::startController. -/
def start_controller (v : Vendor σ δ φ) (s : σ) (instrument : Ptr) : σ × ErrorCode :=
  v.ic_startController s instrument

/-- stop_controller: forwards to InstrumentController::stopController. -/
def stop_controller (v : Vendor σ δ φ) (s : σ) : σ × ErrorCode :=
  v.ic_stopController s

/-- can_vent: forwards to InstrumentController::canVent. -/
def can_vent (v : Vendor σ δ φ) (s : σ) : σ × Bool :=
  v.ic_canVent s

/-- vent: forwards to InstrumentController::vent. -/
def vent (v : Vendor σ δ φ) (s : σ) : σ × ErrorCode :=
  v.ic_vent s

/-- can_pump_down: forwards to InstrumentController::canPumpDown. -/
def can_pump_down (v : Vendor σ δ φ) (s : σ) : σ × Bool :=
  v.ic_canPumpDown s

/-- pump_down: forwards to InstrumentController::pumpDown. -/
def pump_down (v : Vendor σ δ φ) (s : σ) : σ × ErrorCode :=
  v.ic_pumpDown s

/-- get_instrument_state: forwards to InstrumentController::getState. -/
def get_instrument_state (v : Vendor σ δ φ) (s : σ) : σ × InstrumentState :=
  v.ic_getState s

/-- get_operation_mode: forwards to InstrumentController::getOperationMode. -/
def get_operation_mode (v : Vendor σ δ φ) (s : σ) : σ × OperationMode :=
  v.ic_getOperationMode s

/-- can_operate: forwards to InstrumentController::canOperate. -/
def can_operate (v : Vendor σ δ φ) (s : σ) : σ × Bool :=
  v.ic_canOperate s

/-- operate: forwards to InstrumentController::operate. -/
def operate (v : Vendor σ δ φ) (s : σ) : σ × ErrorCode :=
  v.ic_operate s

/-- standby: forwards to InstrumentController::standby. -/
def standby (v : Vendor σ δ φ) (s : σ) : σ × ErrorCode :=
  v.ic_standby s

/-- can_standby: forwards to InstrumentController::canStandby. -/
def can_standby (v : Vendor σ δ φ) (s : σ) : σ × Bool :=
  v.ic_canStandby s

/-- get_tune_parameters: forwards to InstrumentController::getTuneParameters. -/
def get_tune_parameters (v : Vendor σ δ φ) (s : σ) : σ × String :=
  v.ic_getTuneParameters s

/-- set_tune_parameters: forwards to InstrumentController::setTuneParameters. -/
def set_tune_parameters (v : Vendor σ δ φ) (s : σ) (tune_xml : String) : σ × ErrorCode :=
  v.ic_setTuneParameters s tune_xml

/-- get_ion_source_optimization: forwards to InstrumentController::getIonSourceOptimization. -/
def get_ion_source_optimization (v : Vendor σ δ φ) (s : σ) : σ × String :=
  v.ic_getIonSourceOptimization s

/-- set_ion_source_optimization: forwards to InstrumentController::setIonSourceOptimization. -/
def set_ion_source_optimization (v : Vendor σ δ φ) (s : σ) (ion_source_xml : String) :
    σ × ErrorCode :=
  v.ic_setIonSourceOptimization s ion_source_xml

/-- make_reader: new(std::nothrow) DataReader(path, debugOutput, decodeSpectra),
returned as a void pointer; allocation failure yields the null pointer. -/
def make_reader (v : Vendor σ δ φ) (s : σ) (path : String)
    (debugOutput decodeSpectra : Bool) : σ × Ptr :=
  ((v.newDataReader s path debugOutput decodeSpectra).1,
   newNothrow (v.newDataReader s path debugOutput decodeSpectra).2)

/-- free_reader: delete dr; a delete expression on the null pointer is a no-op,
otherwise it runs the DataReader destructor and deallocation. -/
def free_reader (v : Vendor σ δ φ) (s : σ) (dr : Ptr) : σ :=
  if dr = nullPtr then s else v.deleteDataReader s dr

/-- get_delta_background_spectrum: forwards to DataReader::getDeltaBackgroundSpectrum. -/
def get_delta_background_spectrum (v : Vendor σ δ φ) (s : σ) (dr intensities : Ptr) :
    σ × DataErrorCode :=
  v.dr_getDeltaBackgroundSpectrum s dr intensities

/-- get_delta_spectrum: forwards to DataReader::getDeltaSpectrum. -/
def get_delta_spectrum (v : Vendor σ δ φ) (s : σ) (dr : Ptr) (index : Int)
    (intensities : Ptr) : σ × DataErrorCode :=
  v.dr_getDeltaSpectrum s dr index intensities

/-- get_spectrum: forwards to DataReader::getSpectrum. -/
def get_spectrum (v : Vendor σ δ φ) (s : σ) (dr : Ptr) (index : Int)
    (intensities : Ptr) : σ × DataErrorCode :=
  v.dr_getSpectrum s dr index intensities

/-- get_masses: forwards to DataReader::getMasses. -/
def get_masses (v : Vendor σ δ φ) (s : σ) (dr masses : Ptr) : σ × DataErrorCode :=
  v.dr_getMasses s dr masses

/-- num_masses: forwards to DataReader::getNumMasses. -/
def num_masses (v : Vendor σ δ φ) (s : σ) (dr : Ptr) : σ × Int :=
  v.dr_getNumMasses s dr

/-- num_spectra: forwards to DataReader::getNumSpectra. -/
def num_spectra (v : Vendor σ δ φ) (s : σ) (dr : Ptr) : σ × Int :=
  v.dr_getNumSpectra s dr

/-- retention_times: forwards to DataReader::getRetentionTimes. -/
def retention_times (v : Vendor σ δ φ) (s : σ) (dr times : Ptr) : σ × DataErrorCode :=
  v.dr_getRetentionTimes s dr times

/-- get_TIC: forwards to DataReader::getTIC. -/
def get_TIC (v : Vendor σ δ φ) (s : σ) (dr : Ptr) (index : Int) : σ × φ :=
  v.dr_getTIC s dr index

end AdvionWrapper

open AdvionWrapper

/-- Concrete vendor model used as an evaluation point: every operation
preserves the state, queries return fixed values, fallible operations return
the non-success code 1, and every allocation has the fixed outcome a. -/
def baseVendor (σ : Type) (a : Option Ptr) : Vendor σ Unit Unit where
  newUSBInstrument := fun s => (s, a)
  newSimulatedInstrument := fun s _ => (s, a)
  newDataReader := fun s _ _ _ => (s, a)
  deleteDataReader := fun s _ => s
  inst_setInstrumentSwitchOn := fun s _ _ _ => s
  inst_ignoreRemainingPumpDownTime := fun s _ => s
  inst_getPumpDownRemainingSeconds := fun s _ => (s, 0)
  inst_getSourceType := fun s _ => (s, 0)
  inst_getNumberReadback := fun s _ _ => (s, ())
  inst_getBinaryReadback := fun s _ _ => (s, false)
  am_start := fun s _ _ _ _ _ => (s, 0)
  am_startWithSwitching := fun s _ _ _ _ _ _ _ => (s, 0)
  am_stop := fun s => (s, 0)
  am_pause := fun s => (s, 0)
  am_resume := fun s => (s, 0)
  am_extend := fun s i => (s, i)
  am_getState := fun s => (s, 0)
  am_getCurrentFolder := fun s => (s, "")
  am_getAcquisitionBinsPerAMU := fun s => (s, 0)
  am_setAcquisitionBinsPerAMU := fun s _ => (s, 0)
  am_getLastNumMasses := fun s => (s, 0)
  am_getMaxNumMasses := fun s => (s, 0)
  am_getLastSpectrumMasses := fun s _ => (s, 0)
  am_getLastSpectrumIntensities := fun s _ => (s, 0)
  ic_startController := fun s _ => (s, 0)
  ic_stopController := fun s => (s, 0)
  ic_canVent := fun s => (s, false)
  ic_vent := fun s => (s, 1)
  ic_canPumpDown := fun s => (s, false)
  ic_pumpDown := fun s => (s, 1)
  ic_getState := fun s => (s, 0)
  ic_getOperationMode := fun s => (s, 0)
  ic_canOperate := fun s => (s, false)
  ic_operate := fun s => (s, 1)
  ic_standby := fun s => (s, 1)
  ic_canStandby := fun s => (s, false)
  ic_getTuneParameters := fun s => (s, "")
  ic_setTuneParameters := fun s _ => (s, 1)
  ic_getIonSourceOptimization := fun s => (s, "")
  ic_setIonSourceOptimization := fun s _ => (s, 1)
  dr_getDeltaBackgroundSpectrum := fun s _ _ => (s, 1)
  dr_getDeltaSpectrum := fun s _ _ _ => (s, 1)
  dr_getSpectrum := fun s _ _ _ => (s, 1)
  dr_getMasses := fun s _ _ => (s, 1)
  dr_getNumMasses := fun s _ => (s, 0)
  dr_getNumSpectra := fun s _ => (s, 0)
  dr_getRetentionTimes := fun s _ _ => (s, 1)
  dr_getTIC := fun s _ _ => (s, ())

/-- Concrete vendor model whose state is the stored tune-parameter XML:
setTuneParameters stores its argument and succeeds, getTuneParameters
returns the stored value. -/
def tuneVendor : Vendor String Unit Unit :=
  { baseVendor String (some 1) with
    ic_setTuneParameters := fun _ x => (x, CMS_OK)
    ic_getTuneParameters := fun s => (s, s) }

/-- Modelled from the spec: the vendor guarantee on the controller methods
InstrumentController::canVent and InstrumentController::vent (vendor code
absent from this repository) that whenever canVent reports false, a
subsequent vent either fails with a non-success ErrorCode or leaves the
controller state unchanged. -/
def VentGuardContract {σ δ φ : Type} (v : Vendor σ δ φ) : Prop :=
  ∀ s, (v.ic_canVent s).2 = false →
    (v.ic_vent (v.ic_canVent s).1).2 ≠ CMS_OK ∨
    (v.ic_vent (v.ic_canVent s).1).1 = (v.ic_canVent s).1

/-- Modelled from the spec: the vendor guarantee on DataReader::getSpectrum
and DataReader::getTIC (vendor code absent from this repository) that for a
valid reader and an index outside the half-open range from 0 to
getNumSpectra, getSpectrum fails with a non-success code and neither call
silently corrupts state. -/
def ReaderIndexContract {σ δ φ : Type} (v : Vendor σ δ φ) (valid : σ → Ptr → Prop) : Prop :=
  ∀ s r, valid s r → ∀ i buf, (i < 0 ∨ (v.dr_getNumSpectra s r).2 ≤ i) →
    (v.dr_getSpectrum s r i buf).2 ≠ ADVIONDATA_OK ∧
    (v.dr_getSpectrum s r i buf).1 = s ∧
    (v.dr_getTIC s r i).1 = s

/-- Modelled from the spec: the vendor guarantee on
InstrumentController::setTuneParameters and getTuneParameters (vendor code
absent from this repository) that after a successful set with a well-formed
XML string, get returns the same string up to vendor normalization. -/
def TuneRoundTripContract {σ δ φ : Type} (v : Vendor σ δ φ)
    (wellFormed : String → Prop) (normalize : String → String) : Prop :=
  ∀ s x, wellFormed x → (v.ic_setTuneParameters s x).2 = CMS_OK →
    normalize (v.ic_getTuneParameters (v.ic_setTuneParameters s x).1).2 = normalize x

/-- Modelled from the spec: the vendor guarantee on
Instrument::getPumpDownRemainingSeconds and ignoreRemainingPumpDownTime
(vendor code absent from this repository): the remaining-seconds query is
non-negative for a valid instrument, is zero once pump-down has completed,
and is zero after pump-down has been skipped. -/
def PumpdownContract {σ δ φ : Type} (v : Vendor σ δ φ)
    (valid pumpedDown : σ → Ptr → Prop) : Prop :=
  (∀ s h, valid s h → 0 ≤ (v.inst_getPumpDownRemainingSeconds s h).2) ∧
  (∀ s h, valid s h → pumpedDown s h → (v.inst_getPumpDownRemainingSeconds s h).2 = 0) ∧
  (∀ s h, valid s h →
    (v.inst_getPumpDownRemainingSeconds (v.inst_ignoreRemainingPumpDownTime s h) h).2 = 0)

/-- Claim C1: every exported operation of the facade forwards its arguments
unchanged and in order to exactly one corresponding vendor SDK call and
returns that vendor call's result (and resulting state) unchanged; the
facade performs no other computation or state change.  Each conjunct equates
one exported function, on every vendor model, state and argument list, with
the single corresponding vendor operation; for the four object-lifecycle
functions the vendor constructor or destructor call is wrapped only in the
C++ new or delete expression convention of the source line. -/
theorem advion_C1_pure_forwarding {σ δ φ : Type} (v : Vendor σ δ φ) :
    (∀ s, usb_instrument v s =
      ((v.newUSBInstrument s).1, newThrow (v.newUSBInstrument s).2)) ∧
    (∀ s folder, simulated_instrument v s folder =
      ((v.newSimulatedInstrument s folder).1, newThrow (v.newSimulatedInstrument s folder).2)) ∧
    (∀ s instrument swtch value, set_switch v s instrument swtch value =
      v.inst_setInstrumentSwitchOn s instrument swtch value) ∧
    (∀ s instrument, ignore_remaining_pumpdown_time v s instrument =
      v.inst_ignoreRemainingPumpDownTime s instrument) ∧
    (∀ s instrument, get_pumpdown_remaining_seconds v s instrument =
      v.inst_getPumpDownRemainingSeconds s instrument) ∧
    (∀ s instrument, get_source v s instrument = v.inst_getSourceType s instrument) ∧
    (∀ s instrument id, get_number_readback v s instrument id =
      v.inst_getNumberReadback s instrument id) ∧
    (∀ s instrument id, get_binary_readback v s instrument id =
      v.inst_getBinaryReadback s instrument id) ∧
    (∀ s methodXML ionSourceXML tuneXML name folder,
      start v s methodXML ionSourceXML tuneXML name folder =
        v.am_start s methodXML ionSourceXML tuneXML name folder) ∧
    (∀ s methodXML ionSourceXML1 ionSourceXML2 tuneXML1 tuneXML2 name folder,
      start_with_switching v s methodXML ionSourceXML1 ionSourceXML2 tuneXML1 tuneXML2
          name folder =
        v.am_startWithSwitching s methodXML ionSourceXML1 ionSourceXML2 tuneXML1 tuneXML2
          name folder) ∧
    (∀ s, stop v s = v.am_stop s) ∧
    (∀ s, pause v s = v.am_pause s) ∧
    (∀ s, resume v s = v.am_resume s) ∧
    (∀ s seconds, extend v s seconds = v.am_extend s seconds) ∧
    (∀ s, get_state v s = v.am_getState s) ∧
    (∀ s, get_current_folder v s = v.am_getCurrentFolder s) ∧
    (∀ s, get_acquisition_bins_per_amu v s = v.am_getAcquisitionBinsPerAMU s) ∧
    (∀ s bins_per_amu, set_acquisition_bins_per_amu v s bins_per_amu =
      v.am_setAcquisitionBinsPerAMU s bins_per_amu) ∧
    (∀ s, get_last_num_masses v s = v.am_getLastNumMasses s) ∧
    (∀ s, get_max_num_masses v s = v.am_getMaxNumMasses s) ∧
    (∀ s buff, get_last_spectrum_masses v s buff = v.am_getLastSpectrumMasses s buff) ∧
    (∀ s buff, get_last_spectrum_intensities v s buff =
      v.am_getLastSpectrumIntensities s buff) ∧
    (∀ s instrument, start_controller v s instrument = v.ic_startController s instrument) ∧
    (∀ s, stop_controller v s = v.ic_stopController s) ∧
    (∀ s, can_vent v s = v.ic_canVent s) ∧
    (∀ s, vent v s = v.ic_vent s) ∧
    (∀ s, can_pump_down v s = v.ic_canPumpDown s) ∧
    (∀ s, pump_down v s = v.ic_pumpDown s) ∧
    (∀ s, get_instrument_state v s = v.ic_getState s) ∧
    (∀ s, get_operation_mode v s = v.ic_getOperationMode s) ∧
    (∀ s, can_operate v s = v.ic_canOperate s) ∧
    (∀ s, operate v s = v.ic_operate s) ∧
    (∀ s, standby v s = v.ic_standby s) ∧
    (∀ s, can_standby v s = v.ic_canStandby s) ∧
    (∀ s, get_tune_parameters v s = v.ic_getTuneParameters s) ∧
    (∀ s tune_xml, set_tune_parameters v s tune_xml = v.ic_setTuneParameters s tune_xml) ∧
    (∀ s, get_ion_source_optimization v s = v.ic_getIonSourceOptimization s) ∧
    (∀ s ion_source_xml, set_ion_source_optimization v s ion_source_xml =
      v.ic_setIonSourceOptimization s ion_source_xml) ∧
    (∀ s path debugOutput decodeSpectra, make_reader v s path debugOutput decodeSpectra =
      ((v.newDataReader s path debugOutput decodeSpectra).1,
       newNothrow (v.newDataReader s path debugOutput decodeSpectra).2)) ∧
    (∀ s dr, free_reader v s dr = if dr = nullPtr then s else v.deleteDataReader s dr) ∧
    (∀ s dr intensities, get_delta_background_spectrum v s dr intensities =
      v.dr_getDeltaBackgroundSpectrum s dr intensities) ∧
    (∀ s dr index intensities, get_delta_spectrum v s dr index intensities =
      v.dr_getDeltaSpectrum s dr index intensities) ∧
    (∀ s dr index intensities, get_spectrum v s dr index intensities =
      v.dr_getSpectrum s dr index intensities) ∧
    (∀ s dr masses, get_masses v s dr masses = v.dr_getMasses s dr masses) ∧
    (∀ s dr, num_masses v s dr = v.dr_getNumMasses s dr) ∧
    (∀ s dr, num_spectra v s dr = v.dr_getNumSpectra s dr) ∧
    (∀ s dr times, retention_times v s dr times = v.dr_getRetentionTimes s dr times) ∧
    (∀ s dr index, get_TIC v s dr index = v.dr_getTIC s dr index) := by
  refine ⟨?_, ?_, ?_, ?_, ?_, ?_, ?_, ?_, ?_, ?_, ?_, ?_, ?_, ?_, ?_, ?_, ?_, ?_, ?_, ?_,
    ?_, ?_, ?_, ?_, ?_, ?_, ?_, ?_, ?_, ?_, ?_, ?_, ?_, ?_, ?_, ?_, ?_, ?_, ?_, ?_, ?_,
    ?_, ?_, ?_, ?_, ?_, ?_, ?_⟩ <;> intros <;> rfl

/-- Claim C2: for every path, debugOutput and decodeSpectra argument, if
allocation of the DataReader object fails inside make_reader, make_reader
returns the null handle rather than propagating a fault, and it is the only
operation in the file absorbing an allocation failure this way: the other
two allocating operations, usb_instrument and simulated_instrument, let the
allocation fault propagate instead of returning null. -/
theorem advion_C2_make_reader_absorbs_alloc_failure {σ δ φ : Type} (v : Vendor σ δ φ)
    (s : σ) (path : String) (debugOutput decodeSpectra : Bool)
    (hfail : (v.newDataReader s path debugOutput decodeSpectra).2 = none) :
    (make_reader v s path debugOutput decodeSpectra).2 = nullPtr ∧
    (∀ s2, (v.newUSBInstrument s2).2 = none →
      (usb_instrument v s2).2 = Except.error AllocFault.badAlloc) ∧
    (∀ s2 folder, (v.newSimulatedInstrument s2 folder).2 = none →
      (simulated_instrument v s2 folder).2 = Except.error AllocFault.badAlloc) := by
  refine ⟨?_, ?_, ?_⟩
  · simp [make_reader, hfail, newNothrow]
  · intro s2 h
    simp [usb_instrument, h, newThrow]
  · intro s2 folder h
    simp [simulated_instrument, h, newThrow]

/-- Witness for claim C2 at a concrete vendor model whose DataReader
allocation fails. -/
theorem advion_C2_witness :
    (make_reader (baseVendor Unit none) () "run.datx" false false).2 = nullPtr :=
  (advion_C2_make_reader_absorbs_alloc_failure (baseVendor Unit none) () "run.datx"
    false false rfl).1

/-- Claim C3 counterexample: the claim states that for every path naming a
nonexistent file, make_reader returns the null handle.  In the embedded
model the file system lives in the vendor state (here the list of existing
file paths) while the nothrow allocation succeeds or fails independently of
it, exactly as the C++ new(std::nothrow) expression does: its null return is
tied to allocation failure only.  At the concrete state below the queried
path names no existing file, the allocation succeeds, and make_reader
returns a non-null handle, refuting the claim. -/
theorem advion_C3_counterexample :
    "/missing/run.datx" ∉ (["/data/run1.datx"] : List String) ∧
    (make_reader (baseVendor (List String) (some 1)) ["/data/run1.datx"] "/missing/run.datx"
        false false).2 ≠ nullPtr := by
  refine ⟨by decide, ?_⟩
  simp [make_reader, baseVendor, newNothrow, nullPtr]

/-- Claim C3 amended: make_reader returns the null handle exactly when the
DataReader allocation fails; the null return is not tied to the existence of
the file named by the path, so a nonexistent path with a successful
allocation yields a non-null handle (allocation failure itself is absorbed,
not a crash). -/
theorem advion_C3_null_iff_alloc_failure {σ δ φ : Type} (v : Vendor σ δ φ)
    (hok : ∀ s path debugOutput decodeSpectra p,
      (v.newDataReader s path debugOutput decodeSpectra).2 = some p → p ≠ nullPtr)
    (s : σ) (path : String) (debugOutput decodeSpectra : Bool) :
    (make_reader v s path debugOutput decodeSpectra).2 = nullPtr ↔
      (v.newDataReader s path debugOutput decodeSpectra).2 = none := by
  cases h : (v.newDataReader s path debugOutput decodeSpectra).2 with
  | none => simp [make_reader, h, newNothrow]
  | some p =>
    simp [make_reader, h, newNothrow]
    exact hok s path debugOutput decodeSpectra p h

/-- Witness for the amended claim C3 at a concrete vendor model whose
DataReader allocation fails, where make_reader indeed returns null. -/
theorem advion_C3_witness :
    (make_reader (baseVendor Unit none) () "absent.datx" false false).2 = nullPtr :=
  (advion_C3_null_iff_alloc_failure (baseVendor Unit none)
    (fun s path debugOutput decodeSpectra p h => by simp [baseVendor] at h)
    () "absent.datx" false false).mpr rfl

/-- Claim C4: calling free_reader with the null pointer is a safe no-op: the
delete expression does nothing on null, so the state is returned unchanged
and the vendor destructor and deallocation are never invoked. -/
theorem advion_C4_free_reader_null_noop {σ δ φ : Type} (v : Vendor σ δ φ) (s : σ) :
    free_reader v s nullPtr = s := by
  simp [free_reader]

/-- Claim C5: in every controller state in which can_vent reports false, a
subsequent call to vent either returns a non-success ErrorCode or leaves the
controller state unchanged (the embedding is total, so no crash occurs);
the facade forwards both calls unchanged, so the vendor guarantee modelled
from the spec transfers to the exported operations. -/
theorem advion_C5_vent_guard {σ δ φ : Type} (v : Vendor σ δ φ)
    (hc : VentGuardContract v) (s : σ) (hfalse : (can_vent v s).2 = false) :
    (vent v (can_vent v s).1).2 ≠ CMS_OK ∨
    (vent v (can_vent v s).1).1 = (can_vent v s).1 :=
  hc s hfalse

/-- Witness for claim C5 at a concrete vendor model whose canVent is false
and whose vent returns the non-success code 1. -/
theorem advion_C5_witness :
    (vent (baseVendor Unit none) (can_vent (baseVendor Unit none) ()).1).2 ≠ CMS_OK ∨
    (vent (baseVendor Unit none) (can_vent (baseVendor Unit none) ()).1).1 =
      (can_vent (baseVendor Unit none) ()).1 :=
  advion_C5_vent_guard (baseVendor Unit none)
    (fun s _ => Or.inl (by simp [baseVendor, CMS_OK])) () rfl

/-- Claim C6: for a successfully opened reader, get_TIC and get_spectrum are
defined for every index (the facade forwards any index, in or out of range,
unchanged to the single vendor call, performing no bounds check of its own:
first two conjuncts), and for an index outside the range from 0 to
num_spectra they fail predictably rather than silently corrupting state,
by the vendor guarantee modelled from the spec (third conjunct). -/
theorem advion_C6_reader_index {σ δ φ : Type} (v : Vendor σ δ φ)
    (valid : σ → Ptr → Prop) (hc : ReaderIndexContract v valid) :
    (∀ s r i, get_TIC v s r i = v.dr_getTIC s r i) ∧
    (∀ s r i buf, get_spectrum v s r i buf = v.dr_getSpectrum s r i buf) ∧
    (∀ s r, valid s r → ∀ i buf, (i < 0 ∨ (num_spectra v s r).2 ≤ i) →
      (get_spectrum v s r i buf).2 ≠ ADVIONDATA_OK ∧
      (get_spectrum v s r i buf).1 = s ∧
      (get_TIC v s r i).1 = s) :=
  ⟨fun _ _ _ => rfl, fun _ _ _ _ => rfl, hc⟩

/-- Witness for claim C6 at a concrete vendor model with zero spectra, where
the out-of-range index 5 makes get_spectrum fail with a non-success code. -/
theorem advion_C6_witness :
    (get_spectrum (baseVendor Unit none) () 1 5 2).2 ≠ ADVIONDATA_OK :=
  ((advion_C6_reader_index (baseVendor Unit none) (fun _ _ => True)
      (fun s r _ i buf _ => ⟨by simp [baseVendor, ADVIONDATA_OK], rfl, rfl⟩)).2.2
    () 1 trivial 5 2 (Or.inr (by simp [baseVendor, num_spectra]))).1

/-- Claim C7: round-trip of tune configuration: for every well-formed XML
string x, after a successful set_tune_parameters with x, get_tune_parameters
returns x up to vendor normalization; the facade forwards both calls
unchanged, so the vendor guarantee modelled from the spec transfers to the
exported operations. -/
theorem advion_C7_tune_roundtrip {σ δ φ : Type} (v : Vendor σ δ φ)
    (wellFormed : String → Prop) (normalize : String → String)
    (hc : TuneRoundTripContract v wellFormed normalize)
    (s : σ) (x : String) (hwf : wellFormed x)
    (hok : (set_tune_parameters v s x).2 = CMS_OK) :
    normalize (get_tune_parameters v (set_tune_parameters v s x).1).2 = normalize x :=
  hc s x hwf hok

/-- Witness for claim C7 at a concrete vendor model that stores the tune XML
in its state, with the identity normalization. -/
theorem advion_C7_witness :
    id (get_tune_parameters tuneVendor (set_tune_parameters tuneVendor "" "<tune/>").1).2 =
      id "<tune/>" :=
  advion_C7_tune_roundtrip tuneVendor (fun _ => True) id
    (fun _ _ _ _ => rfl) "" "<tune/>" trivial rfl

/-- Claim C8: for every valid instrument handle,
get_pumpdown_remaining_seconds returns a non-negative integer, and it
returns zero once pump-down has completed or has been skipped via
ignore_remaining_pumpdown_time; the facade forwards both calls unchanged,
so the vendor guarantee modelled from the spec transfers to the exported
operations. -/
theorem advion_C8_pumpdown {σ δ φ : Type} (v : Vendor σ δ φ)
    (valid pumpedDown : σ → Ptr → Prop)
    (hc : PumpdownContract v valid pumpedDown) :
    (∀ s inst, valid s inst → 0 ≤ (get_pumpdown_remaining_seconds v s inst).2) ∧
    (∀ s inst, valid s inst → pumpedDown s inst →
      (get_pumpdown_remaining_seconds v s inst).2 = 0) ∧
    (∀ s inst, valid s inst →
      (get_pumpdown_remaining_seconds v
        (ignore_remaining_pumpdown_time v s inst) inst).2 = 0) :=
  hc

/-- Witness for claim C8 at a concrete vendor model: the remaining seconds
are non-negative, and zero after the skip command. -/
theorem advion_C8_witness :
    0 ≤ (get_pumpdown_remaining_seconds (baseVendor Unit none) () 1).2 ∧
    (get_pumpdown_remaining_seconds (baseVendor Unit none)
      (ignore_remaining_pumpdown_time (baseVendor Unit none) () 1) 1).2 = 0 :=
  ⟨(advion_C8_pumpdown (baseVendor Unit none) (fun _ _ => True) (fun _ _ => True)
      ⟨fun _ _ _ => le_refl 0, fun _ _ _ _ => rfl, fun _ _ _ => rfl⟩).1 () 1 trivial,
   (advion_C8_pumpdown (baseVendor Unit none) (fun _ _ => True) (fun _ _ => True)
      ⟨fun _ _ _ => le_refl 0, fun _ _ _ _ => rfl, fun _ _ _ => rfl⟩).2.2 () 1 trivial⟩

/-- Claim C9: the instrument factories usb_instrument and
simulated_instrument return the raw allocation outcome without performing
any null-check or surfacing a distinct error: the first two conjuncts show
each facade result is exactly the new-expression outcome; the third shows
that any successfully produced pointer, even the null one, passes through
unchecked; the fourth shows allocation failure is not converted into a null
handle or error value but remains the raw propagating fault. -/
theorem advion_C9_no_null_check {σ δ φ : Type} (v : Vendor σ δ φ) (s : σ)
    (folder : String) :
    usb_instrument v s = ((v.newUSBInstrument s).1, newThrow (v.newUSBInstrument s).2) ∧
    simulated_instrument v s folder =
      ((v.newSimulatedInstrument s folder).1,
       newThrow (v.newSimulatedInstrument s folder).2) ∧
    (∀ p : Ptr, newThrow (some p) = Except.ok p) ∧
    newThrow (none : Option Ptr) = Except.error AllocFault.badAlloc :=
  ⟨rfl, rfl, fun _ => rfl, rfl⟩

/-- Claim C10: under the C++ guarantee that a successful new expression
yields a non-null pointer, usb_instrument and simulated_instrument never
return a null handle: on success the handle is non-null and on allocation
failure the fault propagates out of the facade; make_reader, the only
factory using a non-throwing allocation, is the only one mapping allocation
failure to the null handle. -/
theorem advion_C10_throwing_factories {σ δ φ : Type} (v : Vendor σ δ φ)
    (husb : ∀ s p, (v.newUSBInstrument s).2 = some p → p ≠ nullPtr)
    (hsim : ∀ s folder p, (v.newSimulatedInstrument s folder).2 = some p → p ≠ nullPtr) :
    (∀ s p, (usb_instrument v s).2 = Except.ok p → p ≠ nullPtr) ∧
    (∀ s folder p, (simulated_instrument v s folder).2 = Except.ok p → p ≠ nullPtr) ∧
    (∀ s, (v.newUSBInstrument s).2 = none →
      (usb_instrument v s).2 = Except.error AllocFault.badAlloc) ∧
    (∀ s folder, (v.newSimulatedInstrument s folder).2 = none →
      (simulated_instrument v s folder).2 = Except.error AllocFault.badAlloc) ∧
    (∀ s path debugOutput decodeSpectra,
      (v.newDataReader s path debugOutput decodeSpectra).2 = none →
      (make_reader v s path debugOutput decodeSpectra).2 = nullPtr) := by
  refine ⟨?_, ?_, ?_, ?_, ?_⟩
  · intro s p hp
    cases ha : (v.newUSBInstrument s).2 with
    | none => simp [usb_instrument, ha, newThrow] at hp
    | some q =>
      have hq : q = p := by simpa [usb_instrument, ha, newThrow] using hp
      exact hq ▸ husb s q ha
  · intro s folder p hp
    cases ha : (v.newSimulatedInstrument s folder).2 with
    | none => simp [simulated_instrument, ha, newThrow] at hp
    | some q =>
      have hq : q = p := by simpa [simulated_instrument, ha, newThrow] using hp
      exact hq ▸ hsim s folder q ha
  · intro s h
    simp [usb_instrument, h, newThrow]
  · intro s folder h
    simp [simulated_instrument, h, newThrow]
  · intro s path debugOutput decodeSpectra h
    simp [make_reader, h, newNothrow]

/-- Witness for claim C10 at a concrete vendor model whose allocations yield
the non-null pointer 1: usb_instrument returns that handle and it is not
null. -/
theorem advion_C10_witness :
    (usb_instrument (baseVendor Unit (some 1)) ()).2 = Except.ok 1 ∧ (1 : Ptr) ≠ nullPtr :=
  ⟨rfl,
   (advion_C10_throwing_factories (baseVendor Unit (some 1))
      (fun s p h => by simp [baseVendor] at h; simp [← h, nullPtr])
      (fun s folder p h => by simp [baseVendor] at h; simp [← h, nullPtr])).1
    () 1 rfl⟩
